import Mathlib

/-!
Shallow embedding of the core of `railway_telegram_notifier.py`
(XAU/USD trading-assistant Telegram notifier): subscriber registry,
preference routing, fan-out delivery, and the monitoring/scheduling loop.

Python dicts holding subscriber records become Lean structures; the
JSON-backed store becomes an in-memory `Store`; side effects (file writes,
log lines, transport sends) become explicit components of each function's
result.  Telegram chat ids may arrive as ints or strings; the code always
compares their `str(...)` forms, so `ChatId` keeps both shapes with a
`pyStr` projection.
-/

namespace Notifier

/-- `settings` dict of a registered user (`register_user`, lines 96-101):
four independent boolean flags. -/
structure Settings where
  price_alerts : Bool
  signal_alerts : Bool
  news_alerts : Bool
  eod_reports : Bool
  deriving DecidableEq, Repr

/-- The default settings created at registration: all four flags true. -/
def Settings.default : Settings := ⟨true, true, true, true⟩

/-- A Telegram chat id as the Python code may hold it: an int (fresh
registrations store `update.effective_chat.id`, an int) or a string
(e.g. after a JSON round trip). -/
inductive ChatId
  | int (n : Int)
  | str (s : String)
  deriving DecidableEq, Repr

/-- Python's `str(chat_id)`: decimal rendering for ints, identity for
strings.  Every identity comparison in the code goes through this. -/
def ChatId.pyStr : ChatId → String
  | .int n => toString n
  | .str s => s

/-- One record of the `users` list (`register_user`, lines 92-102). -/
structure User where
  chat_id : ChatId
  username : Option String
  registered_at : String
  settings : Settings
  deriving DecidableEq, Repr

/-- The persisted store: the `{'users': [...]}` dict. -/
structure Store where
  users : List User
  deriving DecidableEq, Repr

/-- `register_user` (lines 89-105): if `str(chat_id)` is not among the
`str(user['chat_id'])` of the stored users, append a record with default
settings, save, and return `True`; otherwise return `False` with no
mutation.  `now` stands for `datetime.now().strftime(...)`. -/
def register_user (store : Store) (chat_id : ChatId) (username : Option String)
    (now : String) : Store × Bool :=
  if chat_id.pyStr ∈ store.users.map (fun u => u.chat_id.pyStr) then
    (store, false)
  else
    (⟨store.users ++ [⟨chat_id, username, now, Settings.default⟩]⟩, true)

/-- The user-lookup loop shared by `settings_command` (lines 305-309) and
`handle_message` (lines 340-344): first stored user whose
`str(chat_id)` equals the sender's. -/
def findUser (store : Store) (chat_id : String) : Option User :=
  store.users.find? (fun u => u.chat_id.pyStr == chat_id)

/-! String helpers mirroring the Python string operations the handlers use.
They are written by structural recursion over the character list so that
theorems about concrete inputs evaluate by `decide`/`rfl`. -/

/-- Python `str.lower()` restricted to ASCII (the only characters the
command grammar uses): lower-case every character. -/
def pyLower (s : String) : String :=
  ⟨s.data.map Char.toLower⟩

/-- Python `str.split(' ')` on the character list: split at every single
space, keeping empty fields (`'a  b'.split(' ') == ['a', '', 'b']`). -/
def splitSp : List Char → List (List Char)
  | [] => [[]]
  | c :: rest =>
    let r := splitSp rest
    if c = ' ' then [] :: r
    else (c :: r.headD []) :: r.tail

/-- Python `str.split(' ')` as a `String`-level operation. -/
def pySplitSpace (s : String) : List String :=
  (splitSp s.data).map (fun l => ⟨l⟩)

/-- Python `str.startswith(pre)`. -/
def pyStartsWith (s pre : String) : Bool :=
  pre.data.isPrefixOf s.data

/-- Lexicographic strict comparison of code-point sequences: Python's
`<` on strings. -/
def lexLtb : List Char → List Char → Bool
  | [], [] => false
  | [], _ :: _ => true
  | _ :: _, [] => false
  | a :: as, b :: bs =>
    if a < b then true
    else if b < a then false
    else lexLtb as bs

/-- Python `a >= b` on strings: the negation of the (total) lexicographic
code-point `<`. -/
def pyGe (a b : String) : Prop := lexLtb a.data b.data = false

instance (a b : String) : Decidable (pyGe a b) := instDecidableEqBool _ _

/-- Reply sent to any sender whose handle is not in the store
(lines 312 and 347). -/
def notRegistered : String := "You are not registered. Use /start to register."

/-- Fallback reply of `handle_message` (line 376). -/
def dontUnderstand : String :=
  "I don't understand that command. Use /help to see available commands."

/-- The `'ON' if value else 'OFF'` fragment of the toggle replies. -/
def onOffWord (b : Bool) : String := if b then "ON" else "OFF"

/-- Python's in-place mutation `user['settings'][...] = value`
(lines 353, 359, 365, 371): the found dict is an alias into
`self.users['users']`, so the embedding updates the first stored record
whose `str(chat_id)` matches. -/
def setFirstMatching (users : List User) (chat_id : String)
    (f : Settings → Settings) : List User :=
  match users with
  | [] => []
  | u :: rest =>
    if u.chat_id.pyStr = chat_id then { u with settings := f u.settings } :: rest
    else u :: setFirstMatching rest chat_id f

/-- Result of one `handle_message` call: the store afterwards, whether
`save_users` was invoked, and the reply text. -/
structure MsgResult where
  store : Store
  saved : Bool
  reply : String
  deriving DecidableEq, Repr

/-- `handle_message` (lines 334-376): lower-case the text, look the sender
up by `str(chat_id)`; unknown senders get the not-registered reply.  For a
known sender, the four `startswith('<category> ')` branches read the second
space-separated token, set the corresponding flag to whether that token is
`'on'`, save the store and reply with the toggle message; any other text
gets the fallback reply with no mutation. -/
def handle_message (store : Store) (sender : ChatId) (rawText : String) : MsgResult :=
  let chat_id := sender.pyStr
  let text := pyLower rawText
  match findUser store chat_id with
  | none => ⟨store, false, notRegistered⟩
  | some _ =>
    if pyStartsWith text "price " = true then
      let value := decide (pyLower ((pySplitSpace text).getD 1 "") = "on")
      ⟨⟨setFirstMatching store.users chat_id (fun s => { s with price_alerts := value })⟩,
        true, "Price alerts turned " ++ onOffWord value⟩
    else if pyStartsWith text "signal " = true then
      let value := decide (pyLower ((pySplitSpace text).getD 1 "") = "on")
      ⟨⟨setFirstMatching store.users chat_id (fun s => { s with signal_alerts := value })⟩,
        true, "Signal alerts turned " ++ onOffWord value⟩
    else if pyStartsWith text "news " = true then
      let value := decide (pyLower ((pySplitSpace text).getD 1 "") = "on")
      ⟨⟨setFirstMatching store.users chat_id (fun s => { s with news_alerts := value })⟩,
        true, "News alerts turned " ++ onOffWord value⟩
    else if pyStartsWith text "eod " = true then
      let value := decide (pyLower ((pySplitSpace text).getD 1 "") = "on")
      ⟨⟨setFirstMatching store.users chat_id (fun s => { s with eod_reports := value })⟩,
        true, "EOD reports turned " ++ onOffWord value⟩
    else ⟨store, false, dontUnderstand⟩

/-- The settings rendering of `settings_command` (lines 319-330). -/
def settingsMessage (s : Settings) : String :=
  "🔧 Notification Settings:\n\n" ++
  "Price Alerts: " ++ (if s.price_alerts then "✅ ON" else "❌ OFF") ++ "\n" ++
  "Signal Alerts: " ++ (if s.signal_alerts then "✅ ON" else "❌ OFF") ++ "\n" ++
  "News Alerts: " ++ (if s.news_alerts then "✅ ON" else "❌ OFF") ++ "\n" ++
  "EOD Reports: " ++ (if s.eod_reports then "✅ ON" else "❌ OFF") ++ "\n\n" ++
  "To change settings, reply with:\n" ++
  "price on/off\nsignal on/off\nnews on/off\neod on/off"

/-- `settings_command` (lines 300-332): look the sender up by
`str(chat_id)`; unknown senders get the not-registered reply, known ones a
rendering of their current settings.  The function only reads the store. -/
def settings_command (store : Store) (sender : ChatId) : String :=
  match findUser store sender.pyStr with
  | none => notRegistered
  | some u => settingsMessage u.settings

/-- Recipient selection of `send_notification` (lines 405-415): iterate the
stored users in order and keep those whose flag for the notification's
type is set, under the `elif` chain price/signal/news. -/
def notifRecipients (ntype : String) : List User → List User
  | [] => []
  | u :: rest =>
    if ntype = "price" ∧ u.settings.price_alerts = true then
      u :: notifRecipients ntype rest
    else if ntype = "signal" ∧ u.settings.signal_alerts = true then
      u :: notifRecipients ntype rest
    else if ntype = "news" ∧ u.settings.news_alerts = true then
      u :: notifRecipients ntype rest
    else
      notifRecipients ntype rest

/-- Aggregate of the observable delivery effects of the fan-out loops
(`send_notification` lines 420-432, `send_eod_report` lines 457-466):
how many recipients were sent to without an exception, and, for each
failing recipient in iteration order, the `str(chat_id)` and the error
cause that the `except` branch logs. -/
structure DeliveryReport where
  success_count : Nat
  failures : List (String × String)
  deriving DecidableEq, Repr

/-- The per-recipient `try`/`except` fan-out loop shared by
`send_notification` (lines 420-432) and `send_eod_report` (lines 457-466):
each recipient's send is attempted independently; a raised transport error
is caught, logged with the recipient's `chat_id` and the cause, and the
loop continues with the remaining recipients.  `send` models the transport
calls inside one iteration's `try` block. -/
def deliverToAll (send : User → Except String Unit) : List User → DeliveryReport
  | [] => ⟨0, []⟩
  | u :: rest =>
    match send u with
    | .ok _ =>
      let r := deliverToAll send rest
      ⟨r.success_count + 1, r.failures⟩
    | .error e =>
      let r := deliverToAll send rest
      ⟨r.success_count, (u.chat_id.pyStr, e) :: r.failures⟩

/-! Subscriber-store loading. -/

/-- What the filesystem presents to `load_users`: no file at
`self.users_file`, a file whose `open`/read raises an `OSError` carrying
`e`, or a file whose full content is the string `s`. -/
inductive FileRead
  | missing
  | readError (e : String)
  | content (s : String)

/-- `load_users` (lines 70-79).  `parse` stands for the stdlib
`json.load` restricted to the registry shape: `some` when the content
decodes, `none` when it raises `json.JSONDecodeError`.  The result carries
the loaded registry together with the error-log lines emitted, or, as
`Except.error`, an exception propagated to the caller: the `except` clause
at line 76 catches only `json.JSONDecodeError`, so an `OSError` raised
while opening or reading an existing file escapes. -/
def load_users (parse : String → Option Store) : FileRead → Except String (Store × List String)
  | .missing => .ok (⟨[]⟩, [])
  | .readError e => .error e
  | .content s =>
    match parse s with
    | some st => .ok (st, [])
    | none => .ok (⟨[]⟩, ["Error decoding users file, creating new one"])

/-! The monitoring loop (`run_monitoring`, lines 517-559) and `main`
(lines 561-588). -/

/-- One wall-clock sample taken at line 538: `strftime('%H:%M')` of the
current time, and the calendar date (abstracted to a `Nat`). -/
structure Sample where
  time : String
  date : Nat
  deriving DecidableEq, Repr

/-- Outcome of `self.notifier.generate_eod_report()` inside
`generate_and_send_eod_report` (lines 488-505): it returns truthy report
data, returns a falsy value, or raises. -/
inductive ReportOutcome
  | data
  | noData
  | raises
  deriving DecidableEq, Repr

/-- `generate_and_send_eod_report` (lines 488-505): every path returns
normally — a raised exception is caught by the `except` at line 504 and a
falsy result only logs — and a digest is sent onwards only when the
producer returned data.  The returned flag is whether `send_eod_report`
was reached. -/
def generate_and_send_eod_report : ReportOutcome → Bool
  | .data => true
  | .noData => false
  | .raises => false

/-- Observable outcome of the EOD conditional of one loop iteration. -/
structure EodCycle where
  watermark : Option Nat
  invoked : Bool
  sent : Bool
  deriving DecidableEq, Repr

/-- The EOD conditional of one iteration of the `while True` body
(lines 537-544): when the `HH:MM` string is lexicographically at or past
the threshold and `last_eod_report_date` differs from today's date,
`generate_and_send_eod_report` is invoked and the watermark is set to
today's date — unconditionally of how the generation went. -/
def eodCheck (thr : String) (wm : Option Nat) (s : Sample) (o : ReportOutcome) : EodCycle :=
  if pyGe s.time thr ∧ wm ≠ some s.date then
    ⟨some s.date, true, generate_and_send_eod_report o⟩
  else
    ⟨wm, false, false⟩

/-- The sequence of EOD-invocation flags produced by running the loop body
over a trace of wall-clock samples (with each cycle's producer outcome),
threading `last_eod_report_date` exactly as lines 530 and 542-544 do. -/
def eodRun (thr : String) (wm : Option Nat) : List (Sample × ReportOutcome) → List Bool
  | [] => []
  | (s, o) :: rest =>
    let c := eodCheck thr wm s o
    c.invoked :: eodRun thr c.watermark rest

/-- The value of `last_eod_report_date` after running the loop body over a
trace of samples. -/
def eodWmAfter (thr : String) (wm : Option Nat) : List (Sample × ReportOutcome) → Option Nat
  | [] => wm
  | (s, o) :: rest => eodWmAfter thr (eodCheck thr wm s o).watermark rest

/-- A trace of check cycles all falling on calendar date `d`. -/
def onDate (d : Nat) (l : List (String × ReportOutcome)) : List (Sample × ReportOutcome) :=
  l.map (fun p => (⟨p.1, d⟩, p.2))

/-- Modelled from the spec and the claim wording, for comparison with
`eodRun`: the digest triggers on the first sample whose `HH:MM` string is
lexicographically at or past the threshold, and on no later sample. -/
def firstAtOrAfter (thr : String) : List String → List Bool
  | [] => []
  | t :: rest =>
    if pyGe t thr then true :: List.replicate rest.length false
    else false :: firstAtOrAfter thr rest

/-- Fate of one iteration of the `while True` body as seen from the
`try` at line 532: it either completes (every internal handler already
catches its own errors) or raises an exception that reaches the
`except Exception` at line 552. -/
inductive CycleFate
  | ok
  | fault
  deriving DecidableEq, Repr

/-- Number of faulting cycles in a schedule. -/
def countFaults : List CycleFate → Nat
  | [] => 0
  | .ok :: rest => countFaults rest
  | .fault :: rest => countFaults rest + 1

/-- Observable restart behaviour of a monitoring run over a finite
schedule of cycle fates: how often the loop was restarted after a fault,
the sleep taken before each restart, and whether the process terminated
via `sys.exit(1)`. -/
structure MonitorResult where
  restarts : Nat
  backoffs : List Nat
  exited : Bool
  deriving DecidableEq, Repr

/-- `run_monitoring` (lines 517-559) driven by a schedule of cycle fates.
An `ok` cycle continues the `while True` loop; a `fault` reaches the
`except Exception` at line 552, which logs, sleeps a fixed 60 seconds and
calls `self.run_monitoring(eod_report_time)` again — a recursive restart
performed inside `run_monitoring` itself, so the exception never escapes
to `main`'s retry loop (lines 575-588) and `retry_count` stays 0: no path
here reaches `sys.exit(1)` (line 588).  The embedding gives the recursion
unbounded stack (Python's recursion limit is a memory-layout matter
outside the model). -/
def run_monitoring : List CycleFate → MonitorResult
  | [] => ⟨0, [], false⟩
  | .ok :: rest => run_monitoring rest
  | .fault :: rest =>
    let r := run_monitoring rest
    ⟨r.restarts + 1, 60 :: r.backoffs, r.exited⟩

/-! Spec-side descriptions used to state the claims. -/

/-- The fixed category→flag mapping of the routing step: price→price_alerts,
signal→signal_alerts, news→news_alerts. -/
def flagFor (cat : String) (s : Settings) : Bool :=
  if cat = "price" then s.price_alerts
  else if cat = "signal" then s.signal_alerts
  else if cat = "news" then s.news_alerts
  else false

/-- The settings update performed by the `handle_message` branch for a
given category token. -/
def toggleFlag (cat : String) (value : Bool) (s : Settings) : Settings :=
  if cat = "price" then { s with price_alerts := value }
  else if cat = "signal" then { s with signal_alerts := value }
  else if cat = "news" then { s with news_alerts := value }
  else if cat = "eod" then { s with eod_reports := value }
  else s

/-- The reply sent by the `handle_message` branch for a given category
token. -/
def toggleReply (cat : String) (value : Bool) : String :=
  (if cat = "price" then "Price alerts turned "
   else if cat = "signal" then "Signal alerts turned "
   else if cat = "news" then "News alerts turned "
   else "EOD reports turned ") ++ onOffWord value

/-! Concrete fixtures used by the witness theorems. -/

/-- Transport for the delivery witness: the send to `chat_id` `"2"`
raises, every other send succeeds. -/
def wSend : User → Except String Unit :=
  fun u => if u.chat_id.pyStr = "2" then .error "boom" else .ok ()

/-- Three recipients for the delivery witness. -/
def wRecipients : List User :=
  [⟨.str "1", none, "t", Settings.default⟩,
   ⟨.str "2", none, "t", Settings.default⟩,
   ⟨.str "3", none, "t", Settings.default⟩]

/-- Two subscribers for the routing witness: one accepts news alerts, one
has them switched off. -/
def wRouteUsers : List User :=
  [⟨.str "1", none, "t", ⟨true, true, true, true⟩⟩,
   ⟨.str "2", none, "t", ⟨true, true, false, true⟩⟩]

/-! Theorems. -/

/-- C1 (counterexample): a schedule of six consecutive loop faults yields
six restarts of the scheduling loop — beyond the claimed budget of 5 —
every inter-restart sleep is the fixed 60 seconds rather than
`60 * attempt`, and the process never exits: the recursive restart at
line 557 swallows the exception before `main`'s retry loop can count it. -/
theorem claim_C1_counterexample :
    run_monitoring (List.replicate 6 .fault)
      = ⟨6, [60, 60, 60, 60, 60, 60], false⟩ := by
  decide

/-- C1 (amended): an uncaught error inside the scheduling loop is caught
by `run_monitoring` itself, which sleeps a fixed 60 seconds and restarts
the loop by calling itself; the number of restarts equals the number of
faulting cycles with no bound, and no loop fault terminates the process —
the process-level budget of 5 with `60 * attempt` backoff in `main`
applies only to exceptions that escape `run_monitoring`, which loop
faults never do. -/
theorem claim_C1_amended (schedule : List CycleFate) :
    (run_monitoring schedule).restarts = countFaults schedule ∧
    (run_monitoring schedule).exited = false ∧
    (run_monitoring schedule).backoffs = List.replicate (countFaults schedule) 60 := by
  induction schedule with
  | nil => exact ⟨rfl, rfl, rfl⟩
  | cons c rest ih =>
    cases c with
    | ok => simpa [run_monitoring, countFaults] using ih
    | fault =>
      exact ⟨by simp [run_monitoring, countFaults, ih.1],
             by simp [run_monitoring, ih.2.1],
             by simp [run_monitoring, countFaults, List.replicate_succ, ih.2.2]⟩

/-- C4: registering an unknown handle appends exactly one record with all
four flags true and returns true; registering it again returns false with
no mutation, and the store then holds exactly one record for the handle. -/
theorem claim_C4_register_idempotent (store : Store) (h : ChatId)
    (name name2 : Option String) (now now2 : String)
    (hnew : h.pyStr ∉ store.users.map (fun u => u.chat_id.pyStr)) :
    (register_user store h name now).2 = true ∧
    (register_user store h name now).1.users
      = store.users ++ [⟨h, name, now, Settings.default⟩] ∧
    register_user (register_user store h name now).1 h name2 now2
      = ((register_user store h name now).1, false) ∧
    ((register_user store h name now).1.users.filter
      (fun u => u.chat_id.pyStr == h.pyStr)).length = 1 := by
  have h1 : register_user store h name now
      = (⟨store.users ++ [⟨h, name, now, Settings.default⟩]⟩, true) := by
    simp [register_user, hnew]
  have hfilter : store.users.filter (fun u => u.chat_id.pyStr == h.pyStr) = [] := by
    refine List.filter_eq_nil_iff.mpr ?_
    intro u hu he
    exact hnew (List.mem_map.mpr ⟨u, hu, by simpa using he⟩)
  rw [h1]
  refine ⟨rfl, rfl, ?_, ?_⟩
  · have hmem : h.pyStr ∈ (store.users ++ [(⟨h, name, now, Settings.default⟩ : User)]).map
        (fun u => u.chat_id.pyStr) := by
      simp
    simp [register_user, hmem]
  · simp [List.filter_append, hfilter]

/-- C4 (witness): registering handle 7 in the empty store. -/
theorem claim_C4_witness :
    (register_user ⟨[]⟩ (.int 7) (some "bob") "t1").2 = true ∧
    (register_user ⟨[]⟩ (.int 7) (some "bob") "t1").1.users
      = [] ++ [⟨.int 7, some "bob", "t1", Settings.default⟩] ∧
    register_user (register_user ⟨[]⟩ (.int 7) (some "bob") "t1").1 (.int 7) none "t2"
      = ((register_user ⟨[]⟩ (.int 7) (some "bob") "t1").1, false) ∧
    ((register_user ⟨[]⟩ (.int 7) (some "bob") "t1").1.users.filter
      (fun u => u.chat_id.pyStr == (ChatId.int 7).pyStr)).length = 1 := by
  exact claim_C4_register_idempotent ⟨[]⟩ (.int 7) (some "bob") none "t1" "t2" (by simp)

/-- C7 (counterexample): a file that exists but cannot be read — `open`
raises an `OSError` — propagates the failure to the caller: the `except`
clause at line 76 catches only `json.JSONDecodeError`, so the claim's
"never propagating a parse or read failure" does not hold for read
failures. -/
theorem claim_C7_counterexample :
    load_users (fun _ => none) (.readError "PermissionError: [Errno 13]")
      = .error "PermissionError: [Errno 13]" := rfl

/-- C7 (amended): a missing file yields an empty registry; content that
fails to decode yields an empty registry plus the logged decode error and
no raised failure; but a read failure on an existing file propagates to
the caller. -/
theorem claim_C7_amended (parse : String → Option Store) (s e : String)
    (hbad : parse s = none) :
    load_users parse .missing = .ok (⟨[]⟩, []) ∧
    load_users parse (.content s)
      = .ok (⟨[]⟩, ["Error decoding users file, creating new one"]) ∧
    load_users parse (.readError e) = .error e := by
  refine ⟨rfl, ?_, rfl⟩
  simp [load_users, hbad]

/-- C7 (witness): loading with a decoder that rejects the content. -/
theorem claim_C7_witness :
    load_users (fun _ => none) .missing = .ok (⟨[]⟩, []) ∧
    load_users (fun _ => none) (.content "not json")
      = .ok (⟨[]⟩, ["Error decoding users file, creating new one"]) ∧
    load_users (fun _ => none) (.readError "disk error") = .error "disk error" := by
  exact claim_C7_amended (fun _ => none) "not json" "disk error" rfl

/-- C8: any free-text command and the settings command from a handle that
is not in the store produce the not-registered reply; `handle_message`
leaves the store unchanged and does not save, and `settings_command` only
reads the store. -/
theorem claim_C8_unknown_handle (store : Store) (h : ChatId) (text : String)
    (hnone : findUser store h.pyStr = none) :
    handle_message store h text = ⟨store, false, notRegistered⟩ ∧
    settings_command store h = notRegistered := by
  constructor
  · simp [handle_message, hnone]
  · simp [settings_command, hnone]

/-- C8 (witness): a sender unknown to the empty store. -/
theorem claim_C8_witness :
    handle_message ⟨[]⟩ (.int 5) "price on" = ⟨⟨[]⟩, false, notRegistered⟩ ∧
    settings_command ⟨[]⟩ (.int 5) = notRegistered := by
  exact claim_C8_unknown_handle ⟨[]⟩ (.int 5) "price on" rfl

/-- C10: identity is `str(chat_id)`: once an integer chat id is
registered, registering its decimal-string form is refused without
mutation, and the lookup used by the settings and free-text handlers
finds the integer-keyed record under the string form. -/
theorem claim_C10_str_identity (store : Store) (n : Int)
    (name name2 : Option String) (now now2 : String)
    (hreg : (register_user store (.int n) name now).2 = true) :
    register_user (register_user store (.int n) name now).1 (.str (toString n)) name2 now2
      = ((register_user store (.int n) name now).1, false) ∧
    findUser (register_user store (.int n) name now).1 (ChatId.str (toString n)).pyStr
      = some ⟨.int n, name, now, Settings.default⟩ ∧
    settings_command (register_user store (.int n) name now).1 (.str (toString n))
      = settingsMessage Settings.default := by
  have hnew : (ChatId.int n).pyStr ∉ store.users.map (fun u => u.chat_id.pyStr) := by
    intro hmem
    simp [register_user, hmem] at hreg
  have h1 : register_user store (.int n) name now
      = (⟨store.users ++ [⟨.int n, name, now, Settings.default⟩]⟩, true) := by
    simp [register_user, hnew]
  rw [h1]
  have hpy : (ChatId.str (toString n)).pyStr = (ChatId.int n).pyStr := rfl
  have hnone : store.users.find?
      (fun u => u.chat_id.pyStr == (ChatId.str (toString n)).pyStr) = none := by
    rw [List.find?_eq_none]
    intro u hu he
    refine hnew (List.mem_map.mpr ⟨u, hu, ?_⟩)
    rw [← hpy]
    simpa using he
  have hfind : findUser ⟨store.users ++ [⟨.int n, name, now, Settings.default⟩]⟩
      (ChatId.str (toString n)).pyStr = some ⟨.int n, name, now, Settings.default⟩ := by
    simp only [findUser, List.find?_append, hnone, Option.none_or]
    simp [ChatId.pyStr]
  refine ⟨?_, hfind, ?_⟩
  · have hmem : (ChatId.str (toString n)).pyStr ∈
        (store.users ++ [(⟨.int n, name, now, Settings.default⟩ : User)]).map
          (fun u => u.chat_id.pyStr) := by
      simp [ChatId.pyStr]
    unfold register_user
    rw [if_pos hmem]
  · simp [settings_command, hfind]

/-- C10 (witness): chat id 42 registered as an int, then addressed as the
string "42". -/
theorem claim_C10_witness :
    register_user (register_user ⟨[]⟩ (.int 42) (some "bob") "t1").1 (.str (toString (42 : Int))) none "t2"
      = ((register_user ⟨[]⟩ (.int 42) (some "bob") "t1").1, false) ∧
    findUser (register_user ⟨[]⟩ (.int 42) (some "bob") "t1").1 (ChatId.str (toString (42 : Int))).pyStr
      = some ⟨.int 42, some "bob", "t1", Settings.default⟩ ∧
    settings_command (register_user ⟨[]⟩ (.int 42) (some "bob") "t1").1 (.str (toString (42 : Int)))
      = settingsMessage Settings.default := by
  exact claim_C10_str_identity ⟨[]⟩ 42 (some "bob") none "t1" "t2" (by decide)

/-- C5: the recipient-selection step of `send_notification` is exactly a
filter of the subscriber list by the fixed category→flag mapping — a pure
computation that keeps the input order and touches nothing. -/
theorem claim_C5_routing (cat : String) (users : List User)
    (hcat : cat = "price" ∨ cat = "signal" ∨ cat = "news") :
    notifRecipients cat users = users.filter (fun u => flagFor cat u.settings) := by
  rcases hcat with h | h | h <;> subst h
  · induction users with
    | nil => rfl
    | cons u rest ih =>
      cases hpa : u.settings.price_alerts <;>
        simp [notifRecipients, List.filter_cons, flagFor, hpa, ih]
  · induction users with
    | nil => rfl
    | cons u rest ih =>
      cases hpa : u.settings.signal_alerts <;>
        simp [notifRecipients, List.filter_cons, flagFor, hpa, ih]
  · induction users with
    | nil => rfl
    | cons u rest ih =>
      cases hpa : u.settings.news_alerts <;>
        simp [notifRecipients, List.filter_cons, flagFor, hpa, ih]

/-- C5 (witness): routing a news notification over two subscribers, one
of whom has news alerts off. -/
theorem claim_C5_witness :
    notifRecipients "news" wRouteUsers
      = wRouteUsers.filter (fun u => flagFor "news" u.settings) ∧
    wRouteUsers.filter (fun u => flagFor "news" u.settings)
      = [⟨.str "1", none, "t", ⟨true, true, true, true⟩⟩] := by
  exact ⟨claim_C5_routing "news" wRouteUsers (Or.inr (Or.inr rfl)), by decide⟩

/-- Helper: a fan-out over recipients whose sends all succeed reports one
success per recipient and no failures. -/
theorem deliverToAll_all_ok (send : User → Except String Unit) :
    ∀ l : List User, (∀ u ∈ l, send u = .ok ()) →
      deliverToAll send l = ⟨l.length, []⟩ := by
  intro l
  induction l with
  | nil => intro _; rfl
  | cons u rest ih =>
    intro h
    have hu : send u = .ok () := h u (List.mem_cons_self u rest)
    have hr := ih (fun v hv => h v (List.mem_cons_of_mem u hv))
    simp [deliverToAll, hu, hr]

/-- C2: when exactly one recipient's send raises, the failure is caught
and recorded with that recipient's `str(chat_id)` and cause, the other
N-1 recipients are still delivered to, and the aggregated report has
`success_count = N - 1` with that single failure entry. -/
theorem claim_C2_fault_isolation (send : User → Except String Unit)
    (k : User) (c : String) (hfail : send k = .error c) :
    ∀ rs : List User, rs.count k = 1 →
      (∀ u ∈ rs, u ≠ k → send u = .ok ()) →
      (deliverToAll send rs).success_count = rs.length - 1 ∧
      (deliverToAll send rs).failures = [(k.chat_id.pyStr, c)] := by
  intro rs
  induction rs with
  | nil => intro hc _; simp at hc
  | cons u rest ih =>
    intro hc hok
    by_cases hu : u = k
    · subst hu
      have h0 : rest.count u = 0 := by
        rw [List.count_cons_self] at hc
        omega
      have hnot : u ∉ rest := List.count_eq_zero.mp h0
      have hrest := deliverToAll_all_ok send rest
        (fun v hv => hok v (List.mem_cons_of_mem u hv) (fun e => hnot (e ▸ hv)))
      constructor
      · simp [deliverToAll, hfail, hrest]
      · simp [deliverToAll, hfail, hrest]
    · have hc' : rest.count k = 1 := by
        rwa [List.count_cons_of_ne (Ne.symm hu)] at hc
      have hkmem : k ∈ rest := List.count_pos_iff.mp (by omega)
      have hlen : 1 ≤ rest.length := List.length_pos.mpr (List.ne_nil_of_mem hkmem)
      have hrec := ih hc' (fun v hv hne => hok v (List.mem_cons_of_mem u hv) hne)
      have hsu : send u = .ok () := hok u (List.mem_cons_self u rest) hu
      constructor
      · have h1 := hrec.1
        simp only [deliverToAll, hsu]
        simp [h1]
        omega
      · simp [deliverToAll, hsu, hrec.2]

/-- C2 (witness): three recipients, the middle one's transport raises. -/
theorem claim_C2_witness :
    (deliverToAll wSend wRecipients).success_count = 2 ∧
    (deliverToAll wSend wRecipients).failures = [("2", "boom")] := by
  exact claim_C2_fault_isolation wSend ⟨.str "2", none, "t", Settings.default⟩ "boom" rfl
    wRecipients (by decide)
    (by
      intro v hv hne
      simp only [wRecipients, List.mem_cons, List.not_mem_nil, or_false] at hv
      rcases hv with h | h | h <;> subst h
      · rfl
      · exact absurd rfl hne
      · rfl)

/-- C9: once a cycle's wall-clock `HH:MM` is at or past the threshold on
a not-yet-recorded date, `last_eod_report_date` is set to that date even
when the report producer returns no data or raises (the error being
swallowed inside `generate_and_send_eod_report`), so a failed digest
still consumes that date's single trigger and a later same-date cycle
does not retry it. -/
theorem claim_C9_watermark_unconditional (thr : String) (wm : Option Nat)
    (s s2 : Sample) (o o2 : ReportOutcome)
    (ht : pyGe s.time thr) (hd : wm ≠ some s.date) (hdate : s2.date = s.date) :
    (eodCheck thr wm s o).watermark = some s.date ∧
    (eodCheck thr wm s o).invoked = true ∧
    (o ≠ .data → (eodCheck thr wm s o).sent = false) ∧
    (eodCheck thr (eodCheck thr wm s o).watermark s2 o2).invoked = false := by
  have h1 : eodCheck thr wm s o = ⟨some s.date, true, generate_and_send_eod_report o⟩ := by
    simp [eodCheck, ht, hd]
  refine ⟨by rw [h1], by rw [h1], ?_, ?_⟩
  · intro ho
    rw [h1]
    cases o with
    | data => exact absurd rfl ho
    | noData => rfl
    | raises => rfl
  · rw [h1]
    simp [eodCheck, hdate]

/-- C9 (witness): a raising producer at 16:10 on date 5 still stamps the
watermark, and an 18:00 cycle on date 5 does not re-invoke. -/
theorem claim_C9_witness :
    (eodCheck "16:00" none ⟨"16:10", 5⟩ .raises).watermark = some 5 ∧
    (eodCheck "16:00" none ⟨"16:10", 5⟩ .raises).invoked = true ∧
    (eodCheck "16:00" none ⟨"16:10", 5⟩ .raises).sent = false ∧
    (eodCheck "16:00" (eodCheck "16:00" none ⟨"16:10", 5⟩ .raises).watermark
      ⟨"18:00", 5⟩ .data).invoked = false := by
  have h := claim_C9_watermark_unconditional "16:00" none ⟨"16:10", 5⟩ ⟨"18:00", 5⟩
    .raises .data (by decide) (by decide) rfl
  exact ⟨h.1, h.2.1, h.2.2.1 (by decide), h.2.2.2⟩

/-- Helper: unfolding rule for the empty single-date trace. -/
theorem onDate_nil (d : Nat) : onDate d [] = [] := rfl

/-- Helper: unfolding rule for a single-date trace. -/
theorem onDate_cons (d : Nat) (p : String × ReportOutcome)
    (l : List (String × ReportOutcome)) :
    onDate d (p :: l) = (⟨p.1, d⟩, p.2) :: onDate d l := rfl

/-- Helper: the loop's EOD flags over a concatenated trace split at the
threaded watermark. -/
theorem eodRun_append (thr : String) (wm : Option Nat)
    (a b : List (Sample × ReportOutcome)) :
    eodRun thr wm (a ++ b)
      = eodRun thr wm a ++ eodRun thr (eodWmAfter thr wm a) b := by
  induction a generalizing wm with
  | nil => rfl
  | cons p rest ih =>
    cases p with
    | mk s o => simp [eodRun, eodWmAfter, ih]

/-- Helper: once the watermark holds date `d`, no cycle on date `d`
invokes the digest again and the watermark stays put. -/
theorem eodRun_onDate_blocked (thr : String) (d : Nat)
    (l : List (String × ReportOutcome)) :
    eodRun thr (some d) (onDate d l) = List.replicate l.length false ∧
    eodWmAfter thr (some d) (onDate d l) = some d := by
  induction l with
  | nil => exact ⟨rfl, rfl⟩
  | cons p rest ih =>
    cases p with
    | mk t o =>
      have hc : eodCheck thr (some d) ⟨t, d⟩ o = ⟨some d, false, false⟩ := by
        simp [eodCheck]
      constructor
      · rw [onDate_cons]
        simp only [eodRun, hc, List.length_cons, List.replicate_succ]
        rw [ih.1]
      · rw [onDate_cons]
        simp only [eodWmAfter, hc]
        exact ih.2

/-- Helper: over cycles all on a date the watermark does not hold, the
loop invokes the digest exactly at the first at-or-past-threshold sample,
and records the date exactly when some sample reached the threshold. -/
theorem eodRun_onDate_fresh (thr : String) (wm : Option Nat) (d : Nat)
    (l : List (String × ReportOutcome)) (hw : wm ≠ some d) :
    eodRun thr wm (onDate d l) = firstAtOrAfter thr (l.map Prod.fst) ∧
    eodWmAfter thr wm (onDate d l)
      = (if (l.map Prod.fst).any (fun t => decide (pyGe t thr)) then some d else wm) := by
  induction l with
  | nil => exact ⟨rfl, by simp [onDate_nil, eodWmAfter]⟩
  | cons p rest ih =>
    cases p with
    | mk t o =>
      by_cases hg : pyGe t thr
      · have hc : eodCheck thr wm ⟨t, d⟩ o
            = ⟨some d, true, generate_and_send_eod_report o⟩ := by
          simp [eodCheck, hg, hw]
        obtain ⟨hb1, hb2⟩ := eodRun_onDate_blocked thr d rest
        constructor
        · rw [onDate_cons]
          simp only [eodRun, hc, List.map_cons, firstAtOrAfter, if_pos hg, hb1,
            List.length_map]
        · rw [onDate_cons]
          simp only [eodWmAfter, hc, List.map_cons, List.any_cons, hb2]
          simp only [decide_eq_true hg, Bool.true_or, if_pos]
      · have hc : eodCheck thr wm ⟨t, d⟩ o = ⟨wm, false, false⟩ := by
          simp [eodCheck, hg]
        constructor
        · rw [onDate_cons]
          simp only [eodRun, hc, List.map_cons, firstAtOrAfter, if_neg hg, ih.1]
        · rw [onDate_cons]
          simp only [eodWmAfter, hc, List.map_cons, List.any_cons, ih.2]
          simp only [decide_eq_false hg, Bool.false_or]

/-- Helper: the claim-side trigger pattern fires at most once. -/
theorem firstAtOrAfter_count (thr : String) (l : List String) :
    (firstAtOrAfter thr l).count true ≤ 1 := by
  induction l with
  | nil => simp [firstAtOrAfter]
  | cons t rest ih =>
    by_cases hg : pyGe t thr
    · have hz : (List.replicate rest.length false).count true = 0 := by
        simp [List.count_replicate]
      simp [firstAtOrAfter, hg, List.count_cons, hz]
    · simpa [firstAtOrAfter, hg, List.count_cons] using ih

/-- C6: within one continuous run, over cycles on calendar date `d`
followed by cycles on a different date `d'`, the digest is invoked
exactly at the first cycle of each date whose `HH:MM` string compares
lexicographically at or past the threshold — so a later same-date cycle
never re-triggers and the next date triggers exactly once more. -/
theorem claim_C6_digest_dedup (thr : String) (d d' : Nat)
    (xs ys : List (String × ReportOutcome)) (hdd : d ≠ d') :
    eodRun thr none (onDate d xs ++ onDate d' ys)
      = firstAtOrAfter thr (xs.map Prod.fst) ++ firstAtOrAfter thr (ys.map Prod.fst) ∧
    (∀ l : List String, (firstAtOrAfter thr l).count true ≤ 1) := by
  constructor
  · rw [eodRun_append]
    have h1 := eodRun_onDate_fresh thr none d xs (by simp)
    have hwma : eodWmAfter thr none (onDate d xs) ≠ some d' := by
      rw [h1.2]
      split <;> simp [hdd]
    have h2 := eodRun_onDate_fresh thr (eodWmAfter thr none (onDate d xs)) d' ys hwma
    rw [h1.1, h2.1]
  · exact fun l => firstAtOrAfter_count thr l

/-- C6 (witness): three cycles on date 3 (14:55, 16:05, 16:30) and two on
date 4 (15:59, 16:00) against a 16:00 threshold. -/
theorem claim_C6_witness :
    eodRun "16:00" none
        (onDate 3 [("14:55", .data), ("16:05", .data), ("16:30", .data)] ++
          onDate 4 [("15:59", .data), ("16:00", ReportOutcome.raises)])
      = firstAtOrAfter "16:00" ["14:55", "16:05", "16:30"] ++
          firstAtOrAfter "16:00" ["15:59", "16:00"] ∧
    (∀ l : List String, (firstAtOrAfter "16:00" l).count true ≤ 1) := by
  exact claim_C6_digest_dedup "16:00" 3 4
    [("14:55", .data), ("16:05", .data), ("16:30", .data)]
    [("15:59", .data), ("16:00", ReportOutcome.raises)] (by decide)

/-- Helper: `String.append` acts as list append on the character data. -/
theorem strData_append (a b : String) : (a ++ b).data = a.data ++ b.data := rfl

/-- Helper: splitting a space-free character list yields one field. -/
theorem splitSp_no_space (l : List Char) (h : ' ' ∉ l) : splitSp l = [l] := by
  induction l with
  | nil => rfl
  | cons c rest ih =>
    have hc : c ≠ ' ' := fun e => h (e ▸ List.mem_cons_self c rest)
    have hr : splitSp rest = [rest] := ih (fun hm => h (List.mem_cons_of_mem c hm))
    simp [splitSp, hc, hr]

/-- Helper: splitting at the first space after a space-free prefix. -/
theorem splitSp_append (pre rest : List Char) (h : ' ' ∉ pre) :
    splitSp (pre ++ ' ' :: rest) = pre :: splitSp rest := by
  induction pre with
  | nil => simp [splitSp]
  | cons c pre2 ih =>
    have hc : c ≠ ' ' := fun e => h (e ▸ List.mem_cons_self c pre2)
    have hr := ih (fun hm => h (List.mem_cons_of_mem c hm))
    simp [splitSp, hc, hr]

/-- Helper: a list is a prefix of itself followed by anything. -/
theorem isPrefixOf_append_self (l m : List Char) : l.isPrefixOf (l ++ m) = true := by
  induction l with
  | nil => simp [List.isPrefixOf]
  | cons c rest ih => simp [List.isPrefixOf, ih]

/-- Helper: `startswith` holds on an appended continuation. -/
theorem pyStartsWith_append (pre tok : String) :
    pyStartsWith (pre ++ tok) pre = true := by
  rw [pyStartsWith, strData_append]
  exact isPrefixOf_append_self pre.data tok.data

/-- Helper: `startswith` fails when the first characters differ. -/
theorem pyStartsWith_false_of_ne_head (s pre : String) (c c' : Char)
    (r r' : List Char) (hs : s.data = c :: r) (hp : pre.data = c' :: r')
    (h : c' ≠ c) :
    pyStartsWith s pre = false := by
  simp [pyStartsWith, hs, hp, List.isPrefixOf, h]

/-- Helper: the price branch's settings update. -/
theorem toggleFlag_price (v : Bool) :
    toggleFlag "price" v = fun s => { s with price_alerts := v } := by
  funext s
  rfl

/-- Helper: the signal branch's settings update. -/
theorem toggleFlag_signal (v : Bool) :
    toggleFlag "signal" v = fun s => { s with signal_alerts := v } := by
  funext s
  rfl

/-- Helper: the news branch's settings update. -/
theorem toggleFlag_news (v : Bool) :
    toggleFlag "news" v = fun s => { s with news_alerts := v } := by
  funext s
  rfl

/-- Helper: the eod branch's settings update. -/
theorem toggleFlag_eod (v : Bool) :
    toggleFlag "eod" v = fun s => { s with eod_reports := v } := by
  funext s
  rfl

/-- Helper: the price branch's reply. -/
theorem toggleReply_price (v : Bool) :
    toggleReply "price" v = "Price alerts turned " ++ onOffWord v := rfl

/-- Helper: the signal branch's reply. -/
theorem toggleReply_signal (v : Bool) :
    toggleReply "signal" v = "Signal alerts turned " ++ onOffWord v := rfl

/-- Helper: the news branch's reply. -/
theorem toggleReply_news (v : Bool) :
    toggleReply "news" v = "News alerts turned " ++ onOffWord v := rfl

/-- Helper: the eod branch's reply. -/
theorem toggleReply_eod (v : Bool) :
    toggleReply "eod" v = "EOD reports turned " ++ onOffWord v := rfl


/-- Helper: with the sender registered and no category prefix matching,
`handle_message` replies with the fallback and mutates nothing. -/
theorem handle_message_fallback (store : Store) (sender : ChatId) (u : User) (rawText : String)
    (hu : findUser store sender.pyStr = some u)
    (h1 : pyStartsWith (pyLower rawText) "price " = false)
    (h2 : pyStartsWith (pyLower rawText) "signal " = false)
    (h3 : pyStartsWith (pyLower rawText) "news " = false)
    (h4 : pyStartsWith (pyLower rawText) "eod " = false) :
    handle_message store sender rawText = ⟨store, false, dontUnderstand⟩ := by
  simp [handle_message, hu, h1, h2, h3, h4]

/-- Helper: the price branch of `handle_message`. -/
theorem handle_message_price_branch (store : Store) (sender : ChatId) (u : User) (rawText tok : String)
    (hu : findUser store sender.pyStr = some u)
    (hlow : pyLower rawText = "price" ++ " " ++ tok)
    (hsp : ' ' ∉ tok.data)
    (htok : pyLower tok = tok) :
    handle_message store sender rawText
      = ⟨⟨setFirstMatching store.users sender.pyStr
            (toggleFlag "price" (decide (tok = "on")))⟩,
          true, toggleReply "price" (decide (tok = "on"))⟩ := by
  have htext : pyLower rawText = "price " ++ tok := hlow
  have hguard : pyStartsWith (pyLower rawText) "price " = true := by
    rw [htext]
    exact pyStartsWith_append "price " tok
  have hsplit : (pySplitSpace (pyLower rawText))[1]?.getD "" = tok := by
    rw [htext]
    have hd : ("price " ++ tok).data = "price".data ++ (' ' :: tok.data) := rfl
    unfold pySplitSpace
    rw [hd, splitSp_append _ _ (by decide), splitSp_no_space tok.data hsp]
    rfl
  simp [handle_message, hu, hguard, hsplit, htok, toggleFlag_price, toggleReply_price]


/-- Helper: the signal branch of `handle_message`. -/
theorem handle_message_signal_branch (store : Store) (sender : ChatId) (u : User) (rawText tok : String)
    (hu : findUser store sender.pyStr = some u)
    (hlow : pyLower rawText = "signal" ++ " " ++ tok)
    (hsp : ' ' ∉ tok.data)
    (htok : pyLower tok = tok) :
    handle_message store sender rawText
      = ⟨⟨setFirstMatching store.users sender.pyStr
            (toggleFlag "signal" (decide (tok = "on")))⟩,
          true, toggleReply "signal" (decide (tok = "on"))⟩ := by
  have htext : pyLower rawText = "signal " ++ tok := hlow
  have hn1 : pyStartsWith (pyLower rawText) "price " = false := by
    rw [htext]
    exact pyStartsWith_false_of_ne_head _ _ 's' 'p' ("ignal ".data ++ tok.data)
      "rice ".data rfl rfl (by decide)
  have hguard : pyStartsWith (pyLower rawText) "signal " = true := by
    rw [htext]
    exact pyStartsWith_append "signal " tok
  have hsplit : (pySplitSpace (pyLower rawText))[1]?.getD "" = tok := by
    rw [htext]
    have hd : ("signal " ++ tok).data = "signal".data ++ (' ' :: tok.data) := rfl
    unfold pySplitSpace
    rw [hd, splitSp_append _ _ (by decide), splitSp_no_space tok.data hsp]
    rfl
  simp [handle_message, hu, hn1, hguard, hsplit, htok, toggleFlag_signal, toggleReply_signal]

/-- Helper: the news branch of `handle_message`. -/
theorem handle_message_news_branch (store : Store) (sender : ChatId) (u : User) (rawText tok : String)
    (hu : findUser store sender.pyStr = some u)
    (hlow : pyLower rawText = "news" ++ " " ++ tok)
    (hsp : ' ' ∉ tok.data)
    (htok : pyLower tok = tok) :
    handle_message store sender rawText
      = ⟨⟨setFirstMatching store.users sender.pyStr
            (toggleFlag "news" (decide (tok = "on")))⟩,
          true, toggleReply "news" (decide (tok = "on"))⟩ := by
  have htext : pyLower rawText = "news " ++ tok := hlow
  have hn1 : pyStartsWith (pyLower rawText) "price " = false := by
    rw [htext]
    exact pyStartsWith_false_of_ne_head _ _ 'n' 'p' ("ews ".data ++ tok.data)
      "rice ".data rfl rfl (by decide)
  have hn2 : pyStartsWith (pyLower rawText) "signal " = false := by
    rw [htext]
    exact pyStartsWith_false_of_ne_head _ _ 'n' 's' ("ews ".data ++ tok.data)
      "ignal ".data rfl rfl (by decide)
  have hguard : pyStartsWith (pyLower rawText) "news " = true := by
    rw [htext]
    exact pyStartsWith_append "news " tok
  have hsplit : (pySplitSpace (pyLower rawText))[1]?.getD "" = tok := by
    rw [htext]
    have hd : ("news " ++ tok).data = "news".data ++ (' ' :: tok.data) := rfl
    unfold pySplitSpace
    rw [hd, splitSp_append _ _ (by decide), splitSp_no_space tok.data hsp]
    rfl
  simp [handle_message, hu, hn1, hn2, hguard, hsplit, htok, toggleFlag_news, toggleReply_news]

/-- Helper: the eod branch of `handle_message`. -/
theorem handle_message_eod_branch (store : Store) (sender : ChatId) (u : User) (rawText tok : String)
    (hu : findUser store sender.pyStr = some u)
    (hlow : pyLower rawText = "eod" ++ " " ++ tok)
    (hsp : ' ' ∉ tok.data)
    (htok : pyLower tok = tok) :
    handle_message store sender rawText
      = ⟨⟨setFirstMatching store.users sender.pyStr
            (toggleFlag "eod" (decide (tok = "on")))⟩,
          true, toggleReply "eod" (decide (tok = "on"))⟩ := by
  have htext : pyLower rawText = "eod " ++ tok := hlow
  have hn1 : pyStartsWith (pyLower rawText) "price " = false := by
    rw [htext]
    exact pyStartsWith_false_of_ne_head _ _ 'e' 'p' ("od ".data ++ tok.data)
      "rice ".data rfl rfl (by decide)
  have hn2 : pyStartsWith (pyLower rawText) "signal " = false := by
    rw [htext]
    exact pyStartsWith_false_of_ne_head _ _ 'e' 's' ("od ".data ++ tok.data)
      "ignal ".data rfl rfl (by decide)
  have hn3 : pyStartsWith (pyLower rawText) "news " = false := by
    rw [htext]
    exact pyStartsWith_false_of_ne_head _ _ 'e' 'n' ("od ".data ++ tok.data)
      "ews ".data rfl rfl (by decide)
  have hguard : pyStartsWith (pyLower rawText) "eod " = true := by
    rw [htext]
    exact pyStartsWith_append "eod " tok
  have hsplit : (pySplitSpace (pyLower rawText))[1]?.getD "" = tok := by
    rw [htext]
    have hd : ("eod " ++ tok).data = "eod".data ++ (' ' :: tok.data) := rfl
    unfold pySplitSpace
    rw [hd, splitSp_append _ _ (by decide), splitSp_no_space tok.data hsp]
    rfl
  simp [handle_message, hu, hn1, hn2, hn3, hguard, hsplit, htok, toggleFlag_eod, toggleReply_eod]

/-- C3 (counterexample): from a registered sender, the text
`"price xyz"` — a known category with a malformed boolean token — does
not get the generic fallback reply: the branch treats any token other
than `"on"` as off, sets `price_alerts := false`, saves the store and
replies with the toggle message, so the store is mutated. -/
theorem claim_C3_counterexample :
    handle_message ⟨[⟨.int 1, some "al", "t0", Settings.default⟩]⟩ (.int 1) "price xyz"
      = ⟨⟨[⟨.int 1, some "al", "t0", ⟨false, true, true, true⟩⟩]⟩, true,
          "Price alerts turned OFF"⟩ ∧
    "Price alerts turned OFF" ≠ dontUnderstand := by
  exact ⟨by decide, by decide⟩

/-- C3 (amended): for a registered sender, any text whose lower-cased
form is `<category> <token>` with category in price/signal/news/eod sets
exactly that flag to whether the token equals `"on"` — an arbitrary
malformed token is treated as off, not rejected — and saves the store;
only a text matching no category prefix gets the generic
"didn't understand" reply with no store mutation. -/
theorem claim_C3_amended :
    (∀ (store : Store) (sender : ChatId) (u : User) (rawText cat tok : String),
      findUser store sender.pyStr = some u →
      pyLower rawText = cat ++ " " ++ tok →
      (cat = "price" ∨ cat = "signal" ∨ cat = "news" ∨ cat = "eod") →
      ' ' ∉ tok.data →
      pyLower tok = tok →
      handle_message store sender rawText
        = ⟨⟨setFirstMatching store.users sender.pyStr
              (toggleFlag cat (decide (tok = "on")))⟩,
            true, toggleReply cat (decide (tok = "on"))⟩) ∧
    (∀ (store : Store) (sender : ChatId) (u : User) (rawText : String),
      findUser store sender.pyStr = some u →
      pyStartsWith (pyLower rawText) "price " = false →
      pyStartsWith (pyLower rawText) "signal " = false →
      pyStartsWith (pyLower rawText) "news " = false →
      pyStartsWith (pyLower rawText) "eod " = false →
      handle_message store sender rawText = ⟨store, false, dontUnderstand⟩) := by
  constructor
  · intro store sender u rawText cat tok hu hlow hcat hsp htok
    rcases hcat with h | h | h | h <;> subst h
    · exact handle_message_price_branch store sender u rawText tok hu hlow hsp htok
    · exact handle_message_signal_branch store sender u rawText tok hu hlow hsp htok
    · exact handle_message_news_branch store sender u rawText tok hu hlow hsp htok
    · exact handle_message_eod_branch store sender u rawText tok hu hlow hsp htok
  · intro store sender u rawText hu h1 h2 h3 h4
    exact handle_message_fallback store sender u rawText hu h1 h2 h3 h4

/-- C3 (witness): a registered sender toggles eod reports on with mixed
case, and unrecognised text falls through untouched. -/
theorem claim_C3_witness :
    handle_message ⟨[⟨.str "9", none, "t0", Settings.default⟩]⟩ (.str "9") "EOD On"
      = ⟨⟨[⟨.str "9", none, "t0", ⟨true, true, true, true⟩⟩]⟩, true,
          "EOD reports turned ON"⟩ ∧
    handle_message ⟨[⟨.str "9", none, "t0", Settings.default⟩]⟩ (.str "9") "hello world"
      = ⟨⟨[⟨.str "9", none, "t0", Settings.default⟩]⟩, false, dontUnderstand⟩ := by
  constructor
  · exact claim_C3_amended.1 ⟨[⟨.str "9", none, "t0", Settings.default⟩]⟩ (.str "9")
      ⟨.str "9", none, "t0", Settings.default⟩ "EOD On" "eod" "on" (by decide) (by decide)
      (Or.inr (Or.inr (Or.inr rfl))) (by decide) (by decide)
  · exact claim_C3_amended.2 ⟨[⟨.str "9", none, "t0", Settings.default⟩]⟩ (.str "9")
      ⟨.str "9", none, "t0", Settings.default⟩ "hello world" (by decide) (by decide)
      (by decide) (by decide) (by decide)

end Notifier
